import Mathlib

/-!
Shallow embedding of the c-grad reverse-mode autodiff engine's numerical
kernels and tensor accessors, together with proofs of the specification
claims about them.

Conventions of the embedding:
- C doubles are modelled as rationals; every concrete value appearing in
  the claims (0.25, 1.75, small integers) is exactly representable in
  IEEE-754 binary64 and the arithmetic on them is exact, so the rational
  model agrees with the C computation on those inputs.
- A C tensor pointer that may be NULL is an Option tensor; the data
  pointer inside a tensor is an Option (List Rat).
- A C write loop over a buffer becomes a fold that List.set-updates the
  model buffer index by index in the same order as the source.
- Fallible functions return the cgrad_error status together with the
  final contents of their out-parameters.
-/

/-- Error enumeration of utils/error.h, as listed in the specification. -/
inductive cgrad_error where
  | NO_ERROR
  | TENSOR_NULL
  | TENSOR_DATA_NULL
  | TENSOR_SHAPE_MISMATCH
  | TENSOR_DATA_SIZE_MISMATCH
  | TENSOR_WRONG_SHAPE
  | TENSOR_INDEX_OUT_OF_BOUNDS
  | MISSING_NODE
  | OUT_OF_MEMORY
  | INVALID_ROOT
  deriving DecidableEq, Repr

open cgrad_error

/-- Model of struct tensor (tensor/tensor.h): a possibly-NULL data buffer of
doubles, a shape vector, the cached element count data_size and the rank
shape_size.  The graph-node and grad pointers play no role in the kernels
verified here and are omitted. -/
structure tensor where
  data : Option (List ℚ)
  shape : List ℕ
  data_size : ℕ
  shape_size : ℕ
  deriving DecidableEq, Repr

/-- Contents of the data buffer, defaulting to the empty buffer; kernels only
call this after the NULL checks have passed. -/
def tensor.dataL (t : tensor) : List ℚ := t.data.getD []

/-- Shape entry i, as the C read t->shape[i] of the fixed-size shape array. -/
def tensor.shapeAt (t : tensor) (i : ℕ) : ℕ := t.shape.getD i 0

/-- Modelled from the spec: tensor_same_shape (declared in tensor/tensor.h,
body not under src/) checks that two tensors have the same shape, i.e. equal
rank and equal extents in every used dimension. -/
def tensor_same_shape (A B : tensor) : Bool :=
  A.shape_size = B.shape_size &&
    A.shape.take A.shape_size = B.shape.take B.shape_size

/-- Model of struct backpropagation_context: the operand snapshot, indexed by
the per-operator operand-slot enum.  The owned allocator is not modelled;
scratch allocation is pure in the embedding. -/
structure backpropagation_context where
  operands : ℕ → tensor

/-- Left-to-right running sum of f 0 + f 1 + ... + f (n-1), matching the
sequential accumulation order of the C loops. -/
def sumRange (f : ℕ → ℚ) : ℕ → ℚ
  | 0 => 0
  | n + 1 => sumRange f n + f n

/-- Loop writing l[i] = f i for i = 0, 1, ..., n-1, in source order.  The
value written at index i does not depend on the buffer, exactly as in the
kernels it models. -/
def writeLoop (f : ℕ → ℚ) : ℕ → List ℚ → List ℚ
  | 0, l => l
  | n + 1, l => (writeLoop f n l).set n (f n)

/-- Ascending for-loop with loop body step: loopAsc step n l runs step 0,
step 1, ..., step (n-1) on the buffer l in that order. -/
def loopAsc (step : ℕ → List ℚ → List ℚ) : ℕ → List ℚ → List ℚ
  | 0, l => l
  | n + 1, l => step n (loopAsc step n l)

/-- Buffer-producing loop: buildLoop f n is the list [f 0, f 1, ..., f (n-1)],
the row-major buffer a kernel fills index by index. -/
def buildLoop (f : ℕ → ℚ) : ℕ → List ℚ
  | 0 => []
  | n + 1 => buildLoop f n ++ [f n]

namespace relu

/-- Operand-slot enum of layers/relu.c. -/
def RELU_ONLY_OPERAND : ℕ := 0

/-- Model of relu_forward_unchecked_scalar (layers/relu.c): writes
out->data[i] = x->data[i] > 0 ? x->data[i] : 0 for every i < out->data_size. -/
def relu_forward_unchecked_scalar (x out : tensor) : tensor :=
  { out with data := some (writeLoop
      (fun i => if 0 < x.dataL.getD i 0 then x.dataL.getD i 0 else 0)
      out.data_size out.dataL) }

/-- Model of relu_forward (layers/relu.c): validates NULLness of the tensors
and their buffers and shape agreement, then runs the unchecked kernel.  The
second component is the final content of out. -/
def relu_forward (x out : Option tensor) : cgrad_error × Option tensor :=
  match x, out with
  | none, o => (TENSOR_NULL, o)
  | some _, none => (TENSOR_NULL, none)
  | some xt, some ot =>
    if xt.data.isNone || ot.data.isNone then (TENSOR_DATA_NULL, some ot)
    else if !tensor_same_shape xt ot then (TENSOR_SHAPE_MISMATCH, some ot)
    else (NO_ERROR, some (relu_forward_unchecked_scalar xt ot))

/-- Model of relu_forward_graph (layers/relu.c).  The internals of
add_computational_graph_link are outside the embedded sources, so its status
is an input addLinkErr; the third component records the operand-slot indices
of the link registrations performed, in order. -/
def relu_forward_graph (x out : Option tensor) (addLinkErr : cgrad_error) :
    cgrad_error × Option tensor × List ℕ :=
  let r := relu_forward x out
  if r.1 ≠ NO_ERROR then (r.1, r.2, [])
  else (addLinkErr, r.2, [RELU_ONLY_OPERAND])

/-- Model of relu_backpropagate (layers/relu.c): for i < data_size of the
gradient buffer, grad_wrt_operand[i] = (x[i] > 0 ? 1 : 0) * grad_wrt_out[i]. -/
def relu_backpropagate (ctx : backpropagation_context)
    (grad_wrt_out grad_wrt_operand : tensor) : tensor :=
  let x := ctx.operands RELU_ONLY_OPERAND
  { grad_wrt_operand with data := some (writeLoop
      (fun i => (if 0 < x.dataL.getD i 0 then (1 : ℚ) else 0) *
        grad_wrt_out.dataL.getD i 0)
      grad_wrt_operand.data_size grad_wrt_operand.dataL) }

end relu

namespace mse

/-- Operand-slot enum of losses/mse.c. -/
def MSE_PREDICTED : ℕ := 0

/-- Second operand slot of losses/mse.c. -/
def MSE_TARGET : ℕ := 1

/-- Model of mse_loss (losses/mse.c): after NULL, data-size and shape checks,
z->data[0] is set to the running sum of 0.5 * (y_pred[i] - y_target[i])^2 over
i < y_pred->shape[0], divided by that batch size.  The second component is the
final content of z. -/
def mse_loss (y_pred y_target z : Option tensor) : cgrad_error × Option tensor :=
  match y_pred, y_target, z with
  | none, _, zo => (TENSOR_NULL, zo)
  | some _, none, zo => (TENSOR_NULL, zo)
  | some _, some _, none => (TENSOR_NULL, none)
  | some yp, some yt, some zt =>
    if yp.data.isNone || yt.data.isNone || zt.data.isNone then
      (TENSOR_DATA_NULL, some zt)
    else if yp.data_size ≠ yt.data_size then
      (TENSOR_DATA_SIZE_MISMATCH, some zt)
    else if !tensor_same_shape yp yt then
      (TENSOR_SHAPE_MISMATCH, some zt)
    else
      let batch := yp.shapeAt 0
      let s := sumRange
        (fun i =>
          let difference := yp.dataL.getD i 0 - yt.dataL.getD i 0
          (1 / 2) * difference * difference) batch
      (NO_ERROR, some { zt with data := some (zt.dataL.set 0 (s / batch)) })

/-- Model of mse_loss_graph (losses/mse.c).  The two
add_computational_graph_link calls are outside the embedded sources, so their
statuses are the inputs linkErrPredicted and linkErrTarget; the source
discards both return values and, whenever the forward kernel succeeded,
returns NO_ERROR unconditionally. -/
def mse_loss_graph (y_pred y_target z : Option tensor)
    (linkErrPredicted linkErrTarget : cgrad_error) : cgrad_error × Option tensor :=
  let r := mse_loss y_pred y_target z
  if r.1 ≠ NO_ERROR then r else (NO_ERROR, r.2)

/-- Model of mse_loss_backpropagate_predicted (losses/mse.c): with batch the
leading extent of the target operand, writes
grad_wrt_operand[i] = (predicted[i] - target[i]) / batch for i < batch.
The grad_wrt_out argument is received but never read, as in the source. -/
def mse_loss_backpropagate_predicted (ctx : backpropagation_context)
    (grad_wrt_out grad_wrt_operand : tensor) : tensor :=
  let predicted := ctx.operands MSE_PREDICTED
  let target := ctx.operands MSE_TARGET
  let batch := target.shapeAt 0
  { grad_wrt_operand with data := some (writeLoop
      (fun i => (predicted.dataL.getD i 0 - target.dataL.getD i 0) / batch)
      batch grad_wrt_operand.dataL) }

/-- Loop of mse_loss_backpropagate_target: for i = 0, ..., n-1 multiply the
buffer entry at i by -1 in place. -/
def mulNegLoop : ℕ → List ℚ → List ℚ
  | 0, l => l
  | n + 1, l =>
    let l' := mulNegLoop n l
    l'.set n (l'.getD n 0 * (-1))

/-- Model of mse_loss_backpropagate_target (losses/mse.c): runs the predicted
kernel into the buffer, then multiplies the first shape[0] entries of the
buffer by -1. -/
def mse_loss_backpropagate_target (ctx : backpropagation_context)
    (grad_wrt_out grad_wrt_operand : tensor) : tensor :=
  let r := mse_loss_backpropagate_predicted ctx grad_wrt_out grad_wrt_operand
  { r with data := some (mulNegLoop (r.shapeAt 0) r.dataL) }

end mse

namespace linear

/-- Operand-slot enum of layers/linear.c: INPUT. -/
def INPUT : ℕ := 0

/-- Operand-slot enum of layers/linear.c: WEIGHTS. -/
def WEIGHTS : ℕ := 1

/-- Operand-slot enum of layers/linear.c: BIAS. -/
def BIAS : ℕ := 2

/-- Row-major matrix product of an m x n buffer with an n x p buffer:
entry (i, j) of the result is the dot product of row i of a with column j
of b. -/
def matMulData (a b : List ℚ) (m n p : ℕ) : List ℚ :=
  buildLoop (fun idx =>
    let i := idx / p
    let j := idx % p
    sumRange (fun k => a.getD (i * n + k) 0 * b.getD (k * p + j) 0) n) (m * p)

/-- Modelled from the spec: tensor2d_mult (declared in
tensor/tensor2d_mult.h, body not under src/) is the matmul kernel referenced
by contract; it writes the row-major product of its operands into out. -/
def tensor2d_mult (a b out : tensor) : tensor :=
  { out with data := some (
      matMulData a.dataL b.dataL (a.shapeAt 0) (a.shapeAt 1) (b.shapeAt 1)) }

/-- Modelled from the spec: tensor2d_trans (declared in
tensor/tensor2d_trans.h, body not under src/) is the transpose kernel
referenced by contract; it writes the transpose of a into out, whose shape
the caller has set to the swapped shape of a. -/
def tensor2d_trans (a out : tensor) : tensor :=
  let rows := a.shapeAt 0
  let cols := a.shapeAt 1
  { out with data := some (buildLoop (fun idx =>
      let j := idx / rows
      let i := idx % rows
      a.dataL.getD (i * cols + j) 0) (cols * rows)) }

/-- Model of linear_backpropagate_input (layers/linear.c): allocates a
scratch tensor with the swapped shape of the WEIGHTS operand, transposes the
weights into it, and writes grad_wrt_out times that transpose into
grad_wrt_operand. -/
def linear_backpropagate_input (ctx : backpropagation_context)
    (grad_wrt_out grad_wrt_operand : tensor) : tensor :=
  let rhs := ctx.operands WEIGHTS
  let scratch : tensor :=
    { data := some [], shape := [rhs.shapeAt 1, rhs.shapeAt 0],
      data_size := rhs.shapeAt 1 * rhs.shapeAt 0, shape_size := 2 }
  let rhs_trans := tensor2d_trans rhs scratch
  tensor2d_mult grad_wrt_out rhs_trans grad_wrt_operand

/-- Model of linear_backpropagate_weights (layers/linear.c): allocates a
scratch tensor with the swapped shape of the INPUT operand, transposes the
input into it, and writes that transpose times grad_wrt_out into
grad_wrt_operand. -/
def linear_backpropagate_weights (ctx : backpropagation_context)
    (grad_wrt_out grad_wrt_operand : tensor) : tensor :=
  let lhs := ctx.operands INPUT
  let scratch : tensor :=
    { data := some [], shape := [lhs.shapeAt 1, lhs.shapeAt 0],
      data_size := lhs.shapeAt 1 * lhs.shapeAt 0, shape_size := 2 }
  let lhs_trans := tensor2d_trans lhs scratch
  tensor2d_mult lhs_trans grad_wrt_out grad_wrt_operand

/-- Model of linear_backpropagate_bias_scalar (layers/linear.c): for each row
i and column j of grad_wrt_out, adds grad_wrt_out[i * cols + j] into the bias
gradient accumulator at index j, in row-major loop order. -/
def linear_backpropagate_bias_scalar (grad_wrt_out grad_wrt_operand : tensor) :
    tensor :=
  let rows := grad_wrt_out.shapeAt 0
  let cols := grad_wrt_out.shapeAt 1
  let g := grad_wrt_out.dataL
  { grad_wrt_operand with data := some (loopAsc (fun i acc =>
      loopAsc (fun j a =>
        a.set j (a.getD j 0 + g.getD (i * cols + j) 0)) cols acc)
      rows grad_wrt_operand.dataL) }

/-- Model of linear_backpropagate_bias_avx_256 (layers/linear.c).  The
vectorized loop handles j in blocks of 4 while j + 3 < cols, loading 4
accumulator entries at j, adding the 4 upstream entries at i * cols + j and
storing back at j; since each lane reads and writes its own index once, the
block equals 4 elementwise updates.  The scalar remainder loop of the source
then updates index row_offset + j of the accumulator with
grad_wrt_out->data[j], exactly as written there. -/
def linear_backpropagate_bias_avx_256 (grad_wrt_out grad_wrt_operand : tensor) :
    tensor :=
  let rows := grad_wrt_out.shapeAt 0
  let cols := grad_wrt_out.shapeAt 1
  let g := grad_wrt_out.dataL
  let vecEnd := 4 * (cols / 4)
  { grad_wrt_operand with data := some (loopAsc (fun i acc =>
      let acc1 := loopAsc (fun j a =>
        a.set j (a.getD j 0 + g.getD (i * cols + j) 0)) vecEnd acc
      loopAsc (fun jr a =>
        let j := vecEnd + jr
        a.set (i * cols + j) (a.getD (i * cols + j) 0 + g.getD j 0))
        (cols - vecEnd) acc1)
      rows grad_wrt_operand.dataL) }

end linear

namespace tensor2d

/-- Model of tensor2d_set (tensor/tensor.h): validates the tensor pointer,
its data pointer, the rank and the indices in that order, then writes value
at flat index row * shape[1] + col.  The second component is the final
tensor. -/
def tensor2d_set (t : Option tensor) (row col : ℕ) (value : ℚ) :
    cgrad_error × Option tensor :=
  match t with
  | none => (TENSOR_NULL, none)
  | some tt =>
    match tt.data with
    | none => (TENSOR_DATA_NULL, some tt)
    | some d =>
      if tt.shape_size ≠ 2 then (TENSOR_WRONG_SHAPE, some tt)
      else if tt.shapeAt 0 ≤ row ∨ tt.shapeAt 1 ≤ col then
        (TENSOR_INDEX_OUT_OF_BOUNDS, some tt)
      else
        (NO_ERROR, some { tt with
          data := some (d.set (row * tt.shapeAt 1 + col) value) })

/-- Model of tensor2d_get (tensor/tensor.h): the same validation chain via
tensor_check_null, then reads flat index row * shape[1] + col into the value
out-parameter, whose prior content value0 is returned unchanged on error. -/
def tensor2d_get (t : Option tensor) (row col : ℕ) (value0 : ℚ) :
    cgrad_error × ℚ :=
  match t with
  | none => (TENSOR_NULL, value0)
  | some tt =>
    match tt.data with
    | none => (TENSOR_DATA_NULL, value0)
    | some d =>
      if tt.shape_size ≠ 2 then (TENSOR_WRONG_SHAPE, value0)
      else if tt.shapeAt 0 ≤ row ∨ tt.shapeAt 1 ≤ col then
        (TENSOR_INDEX_OUT_OF_BOUNDS, value0)
      else
        (NO_ERROR, d.getD (row * tt.shapeAt 1 + col) 0)

end tensor2d

theorem writeLoop_length (f : ℕ → ℚ) (n : ℕ) (l : List ℚ) :
    (writeLoop f n l).length = l.length := by
  induction n with
  | zero => rfl
  | succ n ih => simp [writeLoop, ih]

theorem writeLoop_getD_lt (f : ℕ → ℚ) (n : ℕ) (l : List ℚ) (i : ℕ)
    (hi : i < n) (hl : i < l.length) :
    (writeLoop f n l).getD i 0 = f i := by
  induction n with
  | zero => omega
  | succ n ih =>
    rcases Nat.lt_succ_iff_lt_or_eq.mp hi with h | h
    · have hlen : i < (writeLoop f n l).length := by rw [writeLoop_length]; exact hl
      have hne : i ≠ n := Nat.ne_of_lt h
      simp only [writeLoop, List.getD_eq_getElem?_getD]
      rw [List.getElem?_set_ne (Ne.symm hne)]
      have := ih h
      simpa [List.getD_eq_getElem?_getD] using this
    · subst h
      have hlen : i < (writeLoop f i l).length := by rw [writeLoop_length]; exact hl
      simp [writeLoop, List.getD_eq_getElem?_getD, List.getElem?_set_self hlen]

theorem writeLoop_getD_ge (f : ℕ → ℚ) (n : ℕ) (l : List ℚ) (i : ℕ)
    (hi : n ≤ i) :
    (writeLoop f n l).getD i 0 = l.getD i 0 := by
  induction n with
  | zero => rfl
  | succ n ih =>
    have h1 : n ≤ i := Nat.le_of_succ_le hi
    have h2 : i ≠ n := by omega
    simp only [writeLoop, List.getD_eq_getElem?_getD]
    rw [List.getElem?_set_ne (Ne.symm h2)]
    have := ih h1
    simpa [List.getD_eq_getElem?_getD] using this


theorem mse.mulNegLoop_length (n : ℕ) (l : List ℚ) :
    (mse.mulNegLoop n l).length = l.length := by
  induction n with
  | zero => rfl
  | succ n ih => simp [mse.mulNegLoop, ih]

theorem mse.mulNegLoop_getD (n : ℕ) (l : List ℚ) (i : ℕ) :
    (mse.mulNegLoop n l).getD i 0 =
      if i < n then l.getD i 0 * (-1) else l.getD i 0 := by
  induction n with
  | zero => simp [mse.mulNegLoop]
  | succ n ih =>
    by_cases hin : i = n
    · subst hin
      by_cases hl : i < l.length
      · have hlen : i < (mse.mulNegLoop i l).length := by rw [mse.mulNegLoop_length]; exact hl
        have ih2 : (mse.mulNegLoop i l)[i]?.getD 0 = l[i]?.getD 0 := by
          simpa [List.getD_eq_getElem?_getD] using ih
        simp [mse.mulNegLoop, List.getD_eq_getElem?_getD,
          List.getElem?_set_self hlen, ih2]
      · have hlen : ¬ i < (mse.mulNegLoop i l).length := by rw [mse.mulNegLoop_length]; exact hl
        have h1 : (mse.mulNegLoop i l)[i]? = none := by
          rw [List.getElem?_eq_none_iff]; omega
        have h2 : l[i]? = none := by
          rw [List.getElem?_eq_none_iff]; omega
        simp [mse.mulNegLoop, List.getD_eq_getElem?_getD, List.getElem?_set, h1, h2, hlen]
    · have hlt : i < n + 1 ↔ i < n := by omega
      simp only [mse.mulNegLoop, List.getD_eq_getElem?_getD]
      rw [List.getElem?_set_ne (Ne.symm hin)]
      simp only [hlt]
      simpa [List.getD_eq_getElem?_getD] using ih


/-- C1: on the context with operands x = [[1, 2]] (1 x 2),
W = [[1, 0, 1], [0, 1, 1]] (2 x 3), b = [[0], [0], [0]] and upstream gradient
grad_out = [[1, 1, 1]], linear_backpropagate_input writes
grad_out * W-transpose = [[2, 2]], linear_backpropagate_weights writes
x-transpose * grad_out = [[1, 1, 1], [2, 2, 2]], and
linear_backpropagate_bias_scalar, starting from a zero accumulator, leaves
[[1], [1], [1]], the column-wise sum of grad_out rows. -/
theorem linear_backward_kernels_concrete :
    (linear.linear_backpropagate_input
      ⟨fun i => if i = 0 then ⟨some [1, 2], [1, 2], 2, 2⟩
        else if i = 1 then ⟨some [1, 0, 1, 0, 1, 1], [2, 3], 6, 2⟩
        else ⟨some [0, 0, 0], [3, 1], 3, 2⟩⟩
      ⟨some [1, 1, 1], [1, 3], 3, 2⟩ ⟨some [0, 0], [1, 2], 2, 2⟩).dataL
      = [2, 2] ∧
    (linear.linear_backpropagate_weights
      ⟨fun i => if i = 0 then ⟨some [1, 2], [1, 2], 2, 2⟩
        else if i = 1 then ⟨some [1, 0, 1, 0, 1, 1], [2, 3], 6, 2⟩
        else ⟨some [0, 0, 0], [3, 1], 3, 2⟩⟩
      ⟨some [1, 1, 1], [1, 3], 3, 2⟩ ⟨some [0, 0, 0, 0, 0, 0], [2, 3], 6, 2⟩).dataL
      = [1, 1, 1, 2, 2, 2] ∧
    (linear.linear_backpropagate_bias_scalar
      ⟨some [1, 1, 1], [1, 3], 3, 2⟩ ⟨some [0, 0, 0], [3, 1], 3, 2⟩).dataL
      = [1, 1, 1] := by
  refine ⟨?_, ?_, ?_⟩ <;>
    norm_num [linear.linear_backpropagate_input, linear.linear_backpropagate_weights,
      linear.linear_backpropagate_bias_scalar, linear.tensor2d_mult,
      linear.tensor2d_trans, linear.matMulData, buildLoop, sumRange, loopAsc,
      tensor.dataL, tensor.shapeAt, linear.WEIGHTS, linear.INPUT]

/-- C2: the ReLU backward kernel writes, for every index i below the size of
the gradient buffer, grad_wrt_operand[i] = (x[i] > 0 ? 1 : 0) *
grad_wrt_out[i]; on x = [[-1, 2, -3, 4]] with an all-ones upstream gradient
the written gradient is [[0, 1, 0, 1]]. -/
theorem relu_backpropagate_spec :
    (∀ (ctx : backpropagation_context) (g buf : tensor) (i : ℕ),
      i < buf.data_size → i < buf.dataL.length →
      (relu.relu_backpropagate ctx g buf).dataL.getD i 0 =
        (if 0 < (ctx.operands relu.RELU_ONLY_OPERAND).dataL.getD i 0
          then (1 : ℚ) else 0) * g.dataL.getD i 0) ∧
    (relu.relu_backpropagate ⟨fun _ => ⟨some [-1, 2, -3, 4], [1, 4], 4, 2⟩⟩
      ⟨some [1, 1, 1, 1], [1, 4], 4, 2⟩ ⟨some [0, 0, 0, 0], [1, 4], 4, 2⟩).dataL
      = [0, 1, 0, 1] := by
  constructor
  · intro ctx g buf i hi hl
    simp only [relu.relu_backpropagate, tensor.dataL]
    exact writeLoop_getD_lt _ buf.data_size buf.dataL i hi hl
  · norm_num [relu.relu_backpropagate, writeLoop, tensor.dataL,
      relu.RELU_ONLY_OPERAND]

/-- C2 witness: the per-index formula evaluated at index 1 of the concrete
ReLU scenario. -/
theorem relu_backpropagate_spec_witness :
    (1 < 4 ∧ 1 < 4) ∧
    (relu.relu_backpropagate ⟨fun _ => ⟨some [-1, 2, -3, 4], [1, 4], 4, 2⟩⟩
      ⟨some [1, 1, 1, 1], [1, 4], 4, 2⟩
      ⟨some [0, 0, 0, 0], [1, 4], 4, 2⟩).dataL.getD 1 0 =
      (if 0 < ((⟨fun _ => ⟨some [-1, 2, -3, 4], [1, 4], 4, 2⟩⟩ :
          backpropagation_context).operands relu.RELU_ONLY_OPERAND).dataL.getD 1 0
        then (1 : ℚ) else 0) *
        (⟨some [1, 1, 1, 1], [1, 4], 4, 2⟩ : tensor).dataL.getD 1 0 :=
  ⟨⟨by decide, by decide⟩,
    relu_backpropagate_spec.1 ⟨fun _ => ⟨some [-1, 2, -3, 4], [1, 4], 4, 2⟩⟩
      ⟨some [1, 1, 1, 1], [1, 4], 4, 2⟩ ⟨some [0, 0, 0, 0], [1, 4], 4, 2⟩ 1
      (by decide) (by decide)⟩

/-- C6: mse_loss_graph ignores the statuses of both
add_computational_graph_link calls: on the valid concrete inputs of the MSE
scenario it returns NO_ERROR no matter what the two link registrations
returned, instead of propagating their failure. -/
theorem mse_loss_graph_discards_link_errors :
    ∀ e1 e2 : cgrad_error,
      mse.mse_loss_graph (some ⟨some [1, 2, 3, 4], [4, 1], 4, 2⟩)
        (some ⟨some [1, 1, 1, 1], [4, 1], 4, 2⟩)
        (some ⟨some [0], [1, 1], 1, 2⟩) e1 e2 =
        (NO_ERROR, some ⟨some [7 / 4], [1, 1], 1, 2⟩) := by
  intro e1 e2
  norm_num [mse.mse_loss_graph, mse.mse_loss, sumRange, tensor.dataL,
    tensor.shapeAt, tensor_same_shape]

/-- C7: the AVX-256 and scalar bias-backward variants disagree: on
grad_wrt_out of shape (2, 1) with data [1, 2] and a zero accumulator of
width 1, the scalar variant leaves [3] (the column sum) while the AVX
variant's remainder loop leaves [1], having directed the second row's
contribution to out-of-range index row_offset + j and read
grad_wrt_out->data[j] of the wrong row. -/
theorem bias_avx_scalar_divergence :
    (linear.linear_backpropagate_bias_scalar ⟨some [1, 2], [2, 1], 2, 2⟩
      ⟨some [0], [1, 1], 1, 2⟩).dataL = [3] ∧
    (linear.linear_backpropagate_bias_avx_256 ⟨some [1, 2], [2, 1], 2, 2⟩
      ⟨some [0], [1, 1], 1, 2⟩).dataL = [1] ∧
    (linear.linear_backpropagate_bias_avx_256 ⟨some [1, 2], [2, 1], 2, 2⟩
        ⟨some [0], [1, 1], 1, 2⟩).dataL ≠
      (linear.linear_backpropagate_bias_scalar ⟨some [1, 2], [2, 1], 2, 2⟩
        ⟨some [0], [1, 1], 1, 2⟩).dataL := by
  refine ⟨?_, ?_, ?_⟩ <;>
    norm_num [linear.linear_backpropagate_bias_scalar,
      linear.linear_backpropagate_bias_avx_256, loopAsc, tensor.dataL,
      tensor.shapeAt]

/-- C10: the MSE backward kernels never read the upstream gradient: for any
two upstream gradient tensors on the same context and buffer, both the
predicted-operand and the target-operand kernels produce identical results. -/
theorem mse_backprop_ignores_upstream (ctx : backpropagation_context)
    (g1 g2 buf : tensor) :
    mse.mse_loss_backpropagate_predicted ctx g1 buf =
      mse.mse_loss_backpropagate_predicted ctx g2 buf ∧
    mse.mse_loss_backpropagate_target ctx g1 buf =
      mse.mse_loss_backpropagate_target ctx g2 buf :=
  ⟨rfl, rfl⟩

/-- C3: for non-null column-vector tensors y_pred and y_target of identical
shape (batch, 1) with batch at least 1 and a valid z, mse_loss returns
NO_ERROR and sets z->data[0] to the sum over i < batch of
0.5 * (y_pred[i] - y_target[i])^2, divided by batch. -/
theorem mse_loss_spec (yp yt zt : tensor) (pd td zd : List ℚ) (batch : ℕ)
    (hb : 1 ≤ batch)
    (hpd : yp.data = some pd) (htd : yt.data = some td) (hzd : zt.data = some zd)
    (hps : yp.shape_size = 2) (hts : yt.shape_size = 2)
    (hpsh : yp.shape.take 2 = [batch, 1]) (htsh : yt.shape.take 2 = [batch, 1])
    (hds : yp.data_size = yt.data_size) :
    mse.mse_loss (some yp) (some yt) (some zt) =
      (NO_ERROR, some { zt with data := some (zd.set 0
        ((sumRange (fun i =>
          1 / 2 * (pd.getD i 0 - td.getD i 0) * (pd.getD i 0 - td.getD i 0))
          batch) / (batch : ℚ))) }) := by
  have hp0 : yp.shapeAt 0 = batch := by
    rcases hsh : yp.shape with _ | ⟨a, t⟩
    · rw [hsh] at hpsh; simp at hpsh
    · rcases t with _ | ⟨b, r⟩ <;> rw [hsh] at hpsh <;>
        simp_all [tensor.shapeAt]
  have hss : tensor_same_shape yp yt = true := by
    simp [tensor_same_shape, hps, hts, hpsh, htsh]
  simp [mse.mse_loss, hpd, htd, hzd, tensor.dataL, hss, hds, hp0]

/-- C3 witness: the concrete MSE scenario y_pred = [[1], [2], [3], [4]],
y_target = [[1], [1], [1], [1]], whose loss is 7/4 = 1.75. -/
theorem mse_loss_spec_witness :
    1 ≤ 4 ∧
    mse.mse_loss (some ⟨some [1, 2, 3, 4], [4, 1], 4, 2⟩)
      (some ⟨some [1, 1, 1, 1], [4, 1], 4, 2⟩)
      (some ⟨some [0], [1, 1], 1, 2⟩) =
      (NO_ERROR, some ⟨some [7 / 4], [1, 1], 1, 2⟩) :=
  ⟨by decide,
    (mse_loss_spec ⟨some [1, 2, 3, 4], [4, 1], 4, 2⟩
      ⟨some [1, 1, 1, 1], [4, 1], 4, 2⟩ ⟨some [0], [1, 1], 1, 2⟩
      [1, 2, 3, 4] [1, 1, 1, 1] [0] 4 (by decide) rfl rfl rfl rfl rfl
      (by decide) (by decide) rfl).trans (by norm_num [sumRange])⟩

/-- C4: the MSE backward kernel for the predicted operand writes, for every
index i below batch = target->shape[0], grad_wrt_operand[i] =
(predicted[i] - target[i]) / batch; on the concrete MSE scenario with unit
seed the written gradient of y_pred is [[0], [0.25], [0.5], [0.75]]. -/
theorem mse_backprop_predicted_spec :
    (∀ (ctx : backpropagation_context) (g buf : tensor) (i : ℕ),
      i < (ctx.operands mse.MSE_TARGET).shapeAt 0 → i < buf.dataL.length →
      (mse.mse_loss_backpropagate_predicted ctx g buf).dataL.getD i 0 =
        ((ctx.operands mse.MSE_PREDICTED).dataL.getD i 0 -
          (ctx.operands mse.MSE_TARGET).dataL.getD i 0) /
          ((ctx.operands mse.MSE_TARGET).shapeAt 0 : ℚ)) ∧
    (mse.mse_loss_backpropagate_predicted
      ⟨fun i => if i = 0 then ⟨some [1, 2, 3, 4], [4, 1], 4, 2⟩
        else ⟨some [1, 1, 1, 1], [4, 1], 4, 2⟩⟩
      ⟨some [1], [1, 1], 1, 2⟩ ⟨some [0, 0, 0, 0], [4, 1], 4, 2⟩).dataL
      = [0, 1 / 4, 1 / 2, 3 / 4] := by
  constructor
  · intro ctx g buf i hi hl
    simp only [mse.mse_loss_backpropagate_predicted, tensor.dataL]
    exact writeLoop_getD_lt _ _ buf.dataL i hi hl
  · norm_num [mse.mse_loss_backpropagate_predicted, writeLoop, tensor.dataL,
      tensor.shapeAt, mse.MSE_PREDICTED, mse.MSE_TARGET]

/-- C4 witness: the per-index formula evaluated at index 1 of the concrete
MSE scenario. -/
theorem mse_backprop_predicted_spec_witness :
    (1 < 4 ∧ 1 < 4) ∧
    (mse.mse_loss_backpropagate_predicted
      ⟨fun i => if i = 0 then ⟨some [1, 2, 3, 4], [4, 1], 4, 2⟩
        else ⟨some [1, 1, 1, 1], [4, 1], 4, 2⟩⟩
      ⟨some [1], [1, 1], 1, 2⟩ ⟨some [0, 0, 0, 0], [4, 1], 4, 2⟩).dataL.getD 1 0 =
      (((⟨fun i => if i = 0 then ⟨some [1, 2, 3, 4], [4, 1], 4, 2⟩
          else ⟨some [1, 1, 1, 1], [4, 1], 4, 2⟩⟩ :
          backpropagation_context).operands mse.MSE_PREDICTED).dataL.getD 1 0 -
        ((⟨fun i => if i = 0 then ⟨some [1, 2, 3, 4], [4, 1], 4, 2⟩
          else ⟨some [1, 1, 1, 1], [4, 1], 4, 2⟩⟩ :
          backpropagation_context).operands mse.MSE_TARGET).dataL.getD 1 0) /
        (((⟨fun i => if i = 0 then ⟨some [1, 2, 3, 4], [4, 1], 4, 2⟩
          else ⟨some [1, 1, 1, 1], [4, 1], 4, 2⟩⟩ :
          backpropagation_context).operands mse.MSE_TARGET).shapeAt 0 : ℚ) :=
  ⟨⟨by decide, by decide⟩,
    mse_backprop_predicted_spec.1
      ⟨fun i => if i = 0 then ⟨some [1, 2, 3, 4], [4, 1], 4, 2⟩
        else ⟨some [1, 1, 1, 1], [4, 1], 4, 2⟩⟩
      ⟨some [1], [1, 1], 1, 2⟩ ⟨some [0, 0, 0, 0], [4, 1], 4, 2⟩ 1
      (by decide) (by decide)⟩

/-- C5: on a context whose operands are column vectors of shape (batch, 1)
and a gradient buffer of that shape, the gradient written by
mse_loss_backpropagate_target is, at every index, the negation of the
gradient written by mse_loss_backpropagate_predicted on the same inputs,
whatever the upstream gradient is. -/
theorem mse_backprop_target_neg_spec (ctx : backpropagation_context)
    (g buf : tensor) (batch : ℕ)
    (ht : (ctx.operands mse.MSE_TARGET).shapeAt 0 = batch)
    (hbuf : buf.shapeAt 0 = batch)
    (hlen : buf.dataL.length = batch) :
    ∀ i, (mse.mse_loss_backpropagate_target ctx g buf).dataL.getD i 0 =
      -((mse.mse_loss_backpropagate_predicted ctx g buf).dataL.getD i 0) := by
  intro i
  have hshape :
      (mse.mse_loss_backpropagate_predicted ctx g buf).shapeAt 0 = batch := by
    simp [mse.mse_loss_backpropagate_predicted, tensor.shapeAt] at hbuf ⊢
    exact hbuf
  have hplen :
      (mse.mse_loss_backpropagate_predicted ctx g buf).dataL.length = batch := by
    simp [mse.mse_loss_backpropagate_predicted, tensor.dataL] at hlen ⊢
    rw [writeLoop_length]
    exact hlen
  simp only [mse.mse_loss_backpropagate_target, tensor.dataL, Option.getD_some,
    hshape]
  have hmain := mse.mulNegLoop_getD batch
    (mse.mse_loss_backpropagate_predicted ctx g buf).dataL i
  simp only [tensor.dataL] at hmain
  rw [hmain]
  by_cases hib : i < batch
  · simp [hib, mul_comm]
  · have hge : (mse.mse_loss_backpropagate_predicted ctx g buf).dataL.getD i 0
        = 0 := by
      apply List.getD_eq_default
      omega
    simp only [tensor.dataL] at hge
    rw [if_neg hib, hge]
    norm_num

/-- C5 witness: the negation relation evaluated at index 1 of the concrete
MSE scenario with batch 4. -/
theorem mse_backprop_target_neg_spec_witness :
    (((⟨fun i => if i = 0 then ⟨some [1, 2, 3, 4], [4, 1], 4, 2⟩
        else ⟨some [1, 1, 1, 1], [4, 1], 4, 2⟩⟩ :
        backpropagation_context).operands mse.MSE_TARGET).shapeAt 0 = 4 ∧
      (⟨some [0, 0, 0, 0], [4, 1], 4, 2⟩ : tensor).shapeAt 0 = 4 ∧
      (⟨some [0, 0, 0, 0], [4, 1], 4, 2⟩ : tensor).dataL.length = 4) ∧
    (mse.mse_loss_backpropagate_target
      ⟨fun i => if i = 0 then ⟨some [1, 2, 3, 4], [4, 1], 4, 2⟩
        else ⟨some [1, 1, 1, 1], [4, 1], 4, 2⟩⟩
      ⟨some [1], [1, 1], 1, 2⟩ ⟨some [0, 0, 0, 0], [4, 1], 4, 2⟩).dataL.getD 1 0 =
      -((mse.mse_loss_backpropagate_predicted
        ⟨fun i => if i = 0 then ⟨some [1, 2, 3, 4], [4, 1], 4, 2⟩
          else ⟨some [1, 1, 1, 1], [4, 1], 4, 2⟩⟩
        ⟨some [1], [1, 1], 1, 2⟩
        ⟨some [0, 0, 0, 0], [4, 1], 4, 2⟩).dataL.getD 1 0) :=
  ⟨⟨by decide, by decide, by decide⟩,
    mse_backprop_target_neg_spec
      ⟨fun i => if i = 0 then ⟨some [1, 2, 3, 4], [4, 1], 4, 2⟩
        else ⟨some [1, 1, 1, 1], [4, 1], 4, 2⟩⟩
      ⟨some [1], [1, 1], 1, 2⟩ ⟨some [0, 0, 0, 0], [4, 1], 4, 2⟩ 4
      (by decide) (by decide) (by decide) 1⟩

/-- C8: relu_forward returns TENSOR_NULL when x or out is NULL,
TENSOR_DATA_NULL when either data buffer is NULL and TENSOR_SHAPE_MISMATCH
when the shapes differ, leaving out unchanged in every error case;
relu_forward_graph forwards any relu_forward error without registering a
link, and otherwise registers exactly one link for operand slot 0 and
returns the status of that registration. -/
theorem relu_forward_and_graph_spec (x out : Option tensor)
    (addLinkErr : cgrad_error) :
    ((x = none ∨ out = none) →
      relu.relu_forward x out = (TENSOR_NULL, out) ∧
      relu.relu_forward_graph x out addLinkErr = (TENSOR_NULL, out, [])) ∧
    (∀ xt ot, x = some xt → out = some ot →
      (xt.data = none ∨ ot.data = none) →
      relu.relu_forward x out = (TENSOR_DATA_NULL, out) ∧
      relu.relu_forward_graph x out addLinkErr = (TENSOR_DATA_NULL, out, [])) ∧
    (∀ xt ot, x = some xt → out = some ot →
      xt.data ≠ none → ot.data ≠ none → tensor_same_shape xt ot = false →
      relu.relu_forward x out = (TENSOR_SHAPE_MISMATCH, out) ∧
      relu.relu_forward_graph x out addLinkErr =
        (TENSOR_SHAPE_MISMATCH, out, [])) ∧
    (∀ e o, relu.relu_forward x out = (e, o) → e ≠ NO_ERROR →
      relu.relu_forward_graph x out addLinkErr = (e, o, [])) ∧
    (∀ o, relu.relu_forward x out = (NO_ERROR, o) →
      relu.relu_forward_graph x out addLinkErr =
        (addLinkErr, o, [relu.RELU_ONLY_OPERAND])) := by
  refine ⟨?_, ?_, ?_, ?_, ?_⟩
  · rintro (h | h) <;> subst h
    · exact ⟨by cases out <;> rfl, by cases out <;> rfl⟩
    · exact ⟨by cases x <;> rfl, by cases x <;> rfl⟩
  · rintro xt ot rfl rfl (h | h) <;>
      constructor <;>
      simp [relu.relu_forward, relu.relu_forward_graph, h]
  · rintro xt ot rfl rfl hx ho hss
    constructor <;>
      simp [relu.relu_forward, relu.relu_forward_graph,
        Option.isNone_iff_eq_none, hx, ho, hss]
  · intro e o hfw hne
    simp [relu.relu_forward_graph, hfw, hne]
  · intro o hfw
    simp [relu.relu_forward_graph, hfw]

/-- C8 witness: the shape-mismatch case at a concrete pair and the success
case at a concrete pair with a failing link registration. -/
theorem relu_forward_and_graph_spec_witness :
    ((⟨some [1], [1, 1], 1, 2⟩ : tensor).data ≠ none ∧
      (⟨some [1, 2], [1, 2], 2, 2⟩ : tensor).data ≠ none ∧
      tensor_same_shape ⟨some [1], [1, 1], 1, 2⟩ ⟨some [1, 2], [1, 2], 2, 2⟩
        = false ∧
      relu.relu_forward (some ⟨some [1], [1, 1], 1, 2⟩)
        (some ⟨some [1, 2], [1, 2], 2, 2⟩) =
        (TENSOR_SHAPE_MISMATCH, some ⟨some [1, 2], [1, 2], 2, 2⟩)) ∧
    relu.relu_forward_graph (some ⟨some [1], [1, 1], 1, 2⟩)
      (some ⟨some [1, 2], [1, 2], 2, 2⟩) OUT_OF_MEMORY =
      (TENSOR_SHAPE_MISMATCH, some ⟨some [1, 2], [1, 2], 2, 2⟩, []) :=
  ⟨⟨by decide, by decide, by decide,
    ((relu_forward_and_graph_spec (some ⟨some [1], [1, 1], 1, 2⟩)
      (some ⟨some [1, 2], [1, 2], 2, 2⟩) OUT_OF_MEMORY).2.2.1
      ⟨some [1], [1, 1], 1, 2⟩ ⟨some [1, 2], [1, 2], 2, 2⟩ rfl rfl
      (by decide) (by decide) (by decide)).1⟩,
    ((relu_forward_and_graph_spec (some ⟨some [1], [1, 1], 1, 2⟩)
      (some ⟨some [1, 2], [1, 2], 2, 2⟩) OUT_OF_MEMORY).2.2.1
      ⟨some [1], [1, 1], 1, 2⟩ ⟨some [1, 2], [1, 2], 2, 2⟩ rfl rfl
      (by decide) (by decide) (by decide)).2⟩

/-- C9: tensor2d_set and tensor2d_get succeed with NO_ERROR and access
exactly the element at flat index row * shape[1] + col precisely when the
tensor is non-null with non-null data, has rank 2 and in-range indices;
otherwise they return TENSOR_NULL, TENSOR_DATA_NULL, TENSOR_WRONG_SHAPE or
TENSOR_INDEX_OUT_OF_BOUNDS in that precedence order and leave the tensor
unchanged. -/
theorem tensor2d_set_get_spec (t : Option tensor) (row col : ℕ) (v val0 : ℚ) :
    (∀ tt d, t = some tt → tt.data = some d → tt.shape_size = 2 →
      row < tt.shapeAt 0 → col < tt.shapeAt 1 →
      tensor2d.tensor2d_set t row col v =
        (NO_ERROR, some { tt with
          data := some (d.set (row * tt.shapeAt 1 + col) v) }) ∧
      tensor2d.tensor2d_get t row col val0 =
        (NO_ERROR, d.getD (row * tt.shapeAt 1 + col) 0)) ∧
    (t = none →
      tensor2d.tensor2d_set t row col v = (TENSOR_NULL, none) ∧
      tensor2d.tensor2d_get t row col val0 = (TENSOR_NULL, val0)) ∧
    (∀ tt, t = some tt → tt.data = none →
      tensor2d.tensor2d_set t row col v = (TENSOR_DATA_NULL, some tt) ∧
      tensor2d.tensor2d_get t row col val0 = (TENSOR_DATA_NULL, val0)) ∧
    (∀ tt d, t = some tt → tt.data = some d → tt.shape_size ≠ 2 →
      tensor2d.tensor2d_set t row col v = (TENSOR_WRONG_SHAPE, some tt) ∧
      tensor2d.tensor2d_get t row col val0 = (TENSOR_WRONG_SHAPE, val0)) ∧
    (∀ tt d, t = some tt → tt.data = some d → tt.shape_size = 2 →
      (tt.shapeAt 0 ≤ row ∨ tt.shapeAt 1 ≤ col) →
      tensor2d.tensor2d_set t row col v =
        (TENSOR_INDEX_OUT_OF_BOUNDS, some tt) ∧
      tensor2d.tensor2d_get t row col val0 =
        (TENSOR_INDEX_OUT_OF_BOUNDS, val0)) := by
  refine ⟨?_, ?_, ?_, ?_, ?_⟩
  · rintro tt d rfl hd hss hr hc
    have hnb : ¬ (tt.shapeAt 0 ≤ row ∨ tt.shapeAt 1 ≤ col) := by omega
    constructor <;>
      simp [tensor2d.tensor2d_set, tensor2d.tensor2d_get, hd, hss, hnb]
  · rintro rfl
    exact ⟨rfl, rfl⟩
  · rintro tt rfl hd
    constructor <;> simp [tensor2d.tensor2d_set, tensor2d.tensor2d_get, hd]
  · rintro tt d rfl hd hss
    constructor <;> simp [tensor2d.tensor2d_set, tensor2d.tensor2d_get, hd, hss]
  · rintro tt d rfl hd hss hb
    constructor <;>
      simp [tensor2d.tensor2d_set, tensor2d.tensor2d_get, hd, hss, hb]

/-- C9 witness: the success case on a concrete 2 x 2 tensor at indices
(1, 0), and the out-of-bounds case at indices (2, 0). -/
theorem tensor2d_set_get_spec_witness :
    ((1 < 2 ∧ 0 < 2) ∧
      tensor2d.tensor2d_set (some ⟨some [1, 2, 3, 4], [2, 2], 4, 2⟩) 1 0 9 =
        (NO_ERROR, some ⟨some [1, 2, 9, 4], [2, 2], 4, 2⟩) ∧
      tensor2d.tensor2d_get (some ⟨some [1, 2, 3, 4], [2, 2], 4, 2⟩) 1 0 7 =
        (NO_ERROR, 3)) ∧
    (tensor2d.tensor2d_set (some ⟨some [1, 2, 3, 4], [2, 2], 4, 2⟩) 2 0 9 =
      (TENSOR_INDEX_OUT_OF_BOUNDS, some ⟨some [1, 2, 3, 4], [2, 2], 4, 2⟩) ∧
     tensor2d.tensor2d_get (some ⟨some [1, 2, 3, 4], [2, 2], 4, 2⟩) 2 0 7 =
      (TENSOR_INDEX_OUT_OF_BOUNDS, 7)) :=
  ⟨⟨⟨by decide, by decide⟩,
    ((tensor2d_set_get_spec (some ⟨some [1, 2, 3, 4], [2, 2], 4, 2⟩) 1 0 9
        7).1 ⟨some [1, 2, 3, 4], [2, 2], 4, 2⟩ [1, 2, 3, 4] rfl rfl rfl
        (by decide) (by decide)).1.trans (by norm_num [tensor.shapeAt]),
    ((tensor2d_set_get_spec (some ⟨some [1, 2, 3, 4], [2, 2], 4, 2⟩) 1 0 9
        7).1 ⟨some [1, 2, 3, 4], [2, 2], 4, 2⟩ [1, 2, 3, 4] rfl rfl rfl
        (by decide) (by decide)).2.trans (by norm_num [tensor.shapeAt])⟩,
    (tensor2d_set_get_spec (some ⟨some [1, 2, 3, 4], [2, 2], 4, 2⟩) 2 0 9
        7).2.2.2.2 ⟨some [1, 2, 3, 4], [2, 2], 4, 2⟩ [1, 2, 3, 4] rfl rfl rfl
        (by decide)⟩
